import Mathlib

set_option maxRecDepth 100000

/-! Verification of the palette routines of PALETTE.CPP
    (CChart, Source/Plot/Accessary/Dib/PALETTE.CPP).

    The Windows GDI collaborators (display device, device context, palette
    resources) are modelled explicitly: a palette resource is a logical
    palette value, a handle is an Option of that, and the display device is a
    record of the capability values the code queries.  Each routine of the
    source file is translated as a pure Lean function over that model;
    allocation failure of the transient descriptor is an explicit Bool
    parameter. -/

/-- Modelled from the spec: MAXPALETTE, the fixed 256-slot palette size, is
    defined in the header palette.h which is not among the repository sources;
    the spec pins it at 256 (fixed 256-entry descriptors, 256-color tables). -/
def MAXPALETTE : Nat := 256

/-- Modelled from the spec: PALVERSION, the fixed palette-format version
    constant from palette.h; the source writes the same literal 0x300 where it
    spells a descriptor inline (CreateIdentityPalette, ClearSystemPalette). -/
def PALVERSION : Nat := 0x300

/-- Windows constant PC_NOCOLLAPSE (wingdi.h), the no-collapse entry flag. -/
def PC_NOCOLLAPSE : Nat := 4

/-- Windows constant RC_PALETTE (wingdi.h), the raster-capability palette bit. -/
def RC_PALETTE : Nat := 0x0100

/-- Windows device-capability index RASTERCAPS (wingdi.h). -/
def RASTERCAPS : Nat := 38

/-- Windows device-capability index SIZEPALETTE (wingdi.h). -/
def SIZEPALETTE : Nat := 104

/-- Windows device-capability index NUMCOLORS (wingdi.h). -/
def NUMCOLORS : Nat := 24

/-- RGBQUAD: device-ordered color entry; memory field order is
    (blue, green, red, reserved), each an 8-bit value. -/
structure RGBQUAD where
  rgbBlue : Nat
  rgbGreen : Nat
  rgbRed : Nat
  rgbReserved : Nat
  deriving DecidableEq

/-- PALETTEENTRY: palette-ordered color entry; memory field order is
    (red, green, blue, flags), each an 8-bit value. -/
structure PALETTEENTRY where
  peRed : Nat
  peGreen : Nat
  peBlue : Nat
  peFlags : Nat
  deriving DecidableEq

/-- Zero RGBQUAD, the value of a zero-initialized buffer slot. -/
def rgbq0 : RGBQUAD := ⟨0, 0, 0, 0⟩

/-- Zero PALETTEENTRY, the value of a zero-initialized buffer slot. -/
def pe0 : PALETTEENTRY := ⟨0, 0, 0, 0⟩

/-- LOGPALETTE: version-tagged, length-prefixed palette descriptor.  A palette
    resource is modelled by the same shape (the OS copies the descriptor). -/
structure LogPalette where
  palVersion : Nat
  palNumEntries : Nat
  palPalEntry : List PALETTEENTRY
  deriving DecidableEq

/-- HPALETTE: an opaque palette handle; none models the NULL handle. -/
abbrev HPALETTE : Type := Option LogPalette

/-- Windows CreatePalette: materializes a resource from a descriptor,
    consuming exactly palNumEntries entries of the descriptor array. -/
def CreatePalette (lp : LogPalette) : HPALETTE :=
  some { lp with palPalEntry := lp.palPalEntry.take lp.palNumEntries }

/-- Windows GetPaletteEntries: read nEntries entries starting at iStart from a
    palette resource (truncated to what the resource actually holds). -/
def GetPaletteEntriesList (pal : LogPalette) (iStart nEntries : Nat) : List PALETTEENTRY :=
  (pal.palPalEntry.drop iStart).take nEntries

/-- Windows SetPaletteEntries: overwrite the entries starting at iStart of a
    palette resource with the given buffer, within the resource bounds. -/
def SetPaletteEntriesList (pal : LogPalette) (iStart : Nat) (es : List PALETTEENTRY) : LogPalette :=
  { pal with
    palPalEntry :=
      pal.palPalEntry.take iStart ++ es.take (pal.palPalEntry.length - iStart) ++
        pal.palPalEntry.drop (iStart + es.length) }

/-- Reading a PALETTEENTRY array through an RGBQUAD pointer cast, as the
    GetPaletteEntries call of CreateRGBQUADFromPalette does: the bytes land by
    memory position, so rgbBlue receives peRed, rgbGreen receives peGreen,
    rgbRed receives peBlue and rgbReserved receives peFlags. -/
def rgbquadOfEntryBytes (e : PALETTEENTRY) : RGBQUAD :=
  { rgbBlue := e.peRed, rgbGreen := e.peGreen, rgbRed := e.peBlue, rgbReserved := e.peFlags }

/-- The literal three-step loop body of CreateRGBQUADFromPalette
    (lines 153-156): reserved := red; red := blue; blue := reserved;
    reserved := 0, executed in place on one RGBQUAD. -/
def rgbSwapLoopBody (q : RGBQUAD) : RGBQUAD :=
  let q1 := { q with rgbReserved := q.rgbRed }
  let q2 := { q1 with rgbRed := q1.rgbBlue }
  let q3 := { q2 with rgbBlue := q2.rgbReserved }
  { q3 with rgbReserved := 0 }

/-- Modelled from the spec: the direct transformation that just swaps the red
    and blue fields and sets reserved to 0, stated for comparison with the
    literal three-step loop body of the source. -/
def rgbSwapDirect (q : RGBQUAD) : RGBQUAD :=
  { rgbBlue := q.rgbRed, rgbGreen := q.rgbGreen, rgbRed := q.rgbBlue, rgbReserved := 0 }

/-- The display device, as seen through the capability queries the source
    performs: raster capabilities, palette size, system-color count, the
    palette-use policy (true models SYSPAL_NOSTATIC) and the contents of the
    OS-wide system palette. -/
structure DisplayDev where
  rasterCaps : Nat
  sizePalette : Nat
  numColors : Nat
  sysPalUseNoStatic : Bool
  sysPal : Nat → PALETTEENTRY

/-- Windows GetDeviceCaps for the three capability indices the source uses. -/
def GetDeviceCaps (d : DisplayDev) (cap : Nat) : Nat :=
  if cap = RASTERCAPS then d.rasterCaps
  else if cap = SIZEPALETTE then d.sizePalette
  else if cap = NUMCOLORS then d.numColors
  else 0

/-- PalEntriesOnDevice (lines 58-75): the palette size of the device, falling
    back to the system-color count when the device reports zero. -/
def PalEntriesOnDevice (d : DisplayDev) : Nat :=
  let nColors := GetDeviceCaps d SIZEPALETTE
  if nColors = 0 then GetDeviceCaps d NUMCOLORS else nColors

/-- CreatePaletteFromRGBQUAD (lines 95-122): build a palette resource from a
    device-ordered color table; allocOk models the GlobalAlloc outcome. -/
def CreatePaletteFromRGBQUAD (rgbqPalette : List RGBQUAD) (wEntries : Nat)
    (allocOk : Bool) : HPALETTE :=
  if allocOk = false then none
  else
    CreatePalette
      { palVersion := PALVERSION, palNumEntries := wEntries,
        palPalEntry := (List.range wEntries).map fun i =>
          let q := rgbqPalette.getD i rgbq0
          { peRed := q.rgbRed, peGreen := q.rgbGreen, peBlue := q.rgbBlue, peFlags := 0 } }

/-- CreateRGBQUADFromPalette (lines 143-160): query the entry count of the
    resource, read its entries through the RGBQUAD cast, run the in-place
    three-step swap on each, and return the filled buffer and the count. -/
def CreateRGBQUADFromPalette (hPal : LogPalette) : List RGBQUAD × Nat :=
  let wEntries := hPal.palNumEntries
  let buf := (GetPaletteEntriesList hPal 0 wEntries).map rgbquadOfEntryBytes
  (buf.map rgbSwapLoopBody, wEntries)

/-- The process environment GetSystemPalette runs in: the screen device when a
    device context is obtainable, and the GlobalAlloc outcome. -/
structure SysEnv where
  dev : Option DisplayDev
  allocOk : Bool

/-- Result of GetSystemPalette: the returned handle, and whether the screen
    device context acquired by the call was released again. -/
structure GsPResult where
  hPal : HPALETTE
  dcReleased : Bool
  deriving DecidableEq

/-- GetSystemPalette (lines 188-239): null when no device context is
    obtainable; null (after releasing the context) when the raster
    capabilities lack the palette bit; null without releasing the context when
    the transient allocation fails; otherwise a snapshot of the system
    palette, sized by PalEntriesOnDevice.  The function-local static handle of
    the source is dead state and is dropped, as the spec directs. -/
def GetSystemPalette (env : SysEnv) : GsPResult :=
  match env.dev with
  | none => { hPal := none, dcReleased := false }
  | some d =>
    if GetDeviceCaps d RASTERCAPS &&& RC_PALETTE = 0 then
      { hPal := none, dcReleased := true }
    else if env.allocOk = false then
      { hPal := none, dcReleased := false }
    else
      let nColors := PalEntriesOnDevice d
      { hPal := CreatePalette
          { palVersion := PALVERSION, palNumEntries := nColors,
            palPalEntry := (List.range nColors).map d.sysPal },
        dcReleased := true }

/-- One step of the nested wrapping counter of CreateSpectrumPalette
    (lines 283-285): red += 32 in BYTE arithmetic; when red wraps to 0,
    green += 32 likewise; when green also wraps, blue += 64. -/
def spectrumStep : Nat × Nat × Nat → Nat × Nat × Nat
  | (red, green, blue) =>
    let red2 := (red + 32) % 256
    if red2 = 0 then
      let green2 := (green + 32) % 256
      if green2 = 0 then (red2, green2, (blue + 64) % 256)
      else (red2, green2, blue)
    else (red2, green, blue)

/-- The filling loop of CreateSpectrumPalette (lines 277-286): k entries
    recorded from the current counter state, stepping after each entry. -/
def spectrumLoop : Nat → Nat × Nat × Nat → List PALETTEENTRY
  | 0, _ => []
  | k + 1, (red, green, blue) =>
    { peRed := red, peGreen := green, peBlue := blue, peFlags := 0 } ::
      spectrumLoop k (spectrumStep (red, green, blue))

/-- The descriptor CreateSpectrumPalette builds: MAXPALETTE entries generated
    by the wrapping counter started at (0, 0, 0). -/
def spectrumPalette : LogPalette :=
  { palVersion := PALVERSION, palNumEntries := MAXPALETTE,
    palPalEntry := spectrumLoop MAXPALETTE (0, 0, 0) }

/-- CreateSpectrumPalette (lines 262-292): null on transient allocation
    failure, otherwise the materialized spectrum descriptor. -/
def CreateSpectrumPalette (allocOk : Bool) : HPALETTE :=
  if allocOk = false then none else CreatePalette spectrumPalette

/-- CopyPalette (lines 307-326): query the entry count, read that many entries
    into a fresh descriptor whose count is the number actually retrieved, and
    materialize it; null on transient allocation failure. -/
def CopyPalette (hPal : LogPalette) (allocOk : Bool) : HPALETTE :=
  if allocOk = false then none
  else
    let iNumEntries := hPal.palNumEntries
    let retrieved := GetPaletteEntriesList hPal 0 iNumEntries
    CreatePalette
      { palVersion := PALVERSION, palNumEntries := retrieved.length,
        palPalEntry := retrieved }

/-- CopyPaletteEx (lines 339-358): null for a null input handle (the entry
    count query fails exactly there in the model); otherwise duplicate via
    CopyPalette, overwrite every flag byte of the copy with bFlag and write
    the entries back; when the underlying copy failed the null handle is
    returned (the read and write on it are no-ops). -/
def CopyPaletteEx (hPal : HPALETTE) (bFlag : Nat) (allocOk : Bool) : HPALETTE :=
  match hPal with
  | none => none
  | some pal =>
    let wNumColors := pal.palNumEntries
    match CopyPalette pal allocOk with
    | none => none
    | some newPal =>
      let pe := GetPaletteEntriesList newPal 0 wNumColors
      let pe2 := pe.map fun e => { e with peFlags := bFlag }
      some (SetPaletteEntriesList newPal 0 pe2)

/-- Write the flags field of slot i of a PALETTEENTRY array, leaving the color
    bytes of the slot in place (a no-op beyond the array bounds). -/
def setEntryFlags (a : List PALETTEENTRY) (i f : Nat) : List PALETTEENTRY :=
  a.set i { a.getD i pe0 with peFlags := f }

/-- Write slot i of a PALETTEENTRY array from entry i of a device-ordered
    color table, with the no-collapse flag (lines 401-404 and 448-451). -/
def setEntryFromTable (tbl : List RGBQUAD) (a : List PALETTEENTRY) (i : Nat) : List PALETTEENTRY :=
  let q := tbl.getD i rgbq0
  a.set i { peRed := q.rgbRed, peGreen := q.rgbGreen, peBlue := q.rgbBlue,
            peFlags := PC_NOCOLLAPSE }

/-- A loop that writes the flag byte f into each listed slot in order. -/
def flagsLoop (idxs : List Nat) (f : Nat) (a : List PALETTEENTRY) : List PALETTEENTRY :=
  idxs.foldl (fun b i => setEntryFlags b i f) a

/-- A loop that fills each listed slot from the color table in order. -/
def tableLoop (tbl : List RGBQUAD) (idxs : List Nat) (a : List PALETTEENTRY) : List PALETTEENTRY :=
  idxs.foldl (setEntryFromTable tbl) a

/-- The SYSPAL_NOSTATIC branch of CreateIdentityPalette (lines 396-425): start
    from the zero-initialized 256-slot descriptor, fill slots 0..nColors-1
    from the table with no-collapse, mark the remaining slots no-collapse,
    then force entry 255 to white and entry 0 to black, both with flags 0. -/
def identNoStatic (tbl : List RGBQUAD) (nColors : Nat) : List PALETTEENTRY :=
  let a1 := tableLoop tbl (List.range nColors) (List.replicate MAXPALETTE pe0)
  let a2 := flagsLoop (List.range' nColors (MAXPALETTE - nColors)) PC_NOCOLLAPSE a1
  let a3 := a2.set 255 ⟨255, 255, 255, 0⟩
  a3.set 0 ⟨0, 0, 0, 0⟩

/-- The SYSPAL_STATIC branch of CreateIdentityPalette (lines 430-461): start
    from the full system-palette snapshot; with s = numStatic / 2, force flags
    of slots below s to 0, copy table entries into slots s..(nColors-s)-1 with
    no-collapse (the loop starts at s and stops before nColors - s, in int
    arithmetic), mark slots up to 256-s no-collapse, and force flags of the
    top s slots to 0. -/
def identStatic (tbl : List RGBQUAD) (nColors numStatic : Nat)
    (sp : Nat → PALETTEENTRY) : List PALETTEENTRY :=
  let s := numStatic / 2
  let b0 := (List.range MAXPALETTE).map sp
  let b1 := flagsLoop (List.range s) 0 b0
  let b2 := tableLoop tbl (List.range' s (nColors - s - s)) b1
  let i3 := s + (nColors - s - s)
  let b3 := flagsLoop (List.range' i3 (MAXPALETTE - s - i3)) PC_NOCOLLAPSE b2
  flagsLoop (List.range' (MAXPALETTE - s) (MAXPALETTE - (MAXPALETTE - s))) 0 b3

/-- CreateIdentityPalette (lines 375-468): branch on the palette-use policy of
    the screen device and materialize the resulting fixed 256-entry
    descriptor, version 0x300. -/
def CreateIdentityPalette (dev : DisplayDev) (lprgbq : List RGBQUAD) (nColors : Nat) : HPALETTE :=
  let entries :=
    if dev.sysPalUseNoStatic then identNoStatic lprgbq nColors
    else identStatic lprgbq nColors (GetDeviceCaps dev NUMCOLORS) dev.sysPal
  CreatePalette { palVersion := 0x300, palNumEntries := MAXPALETTE, palPalEntry := entries }

/-- The screen GDI state ClearSystemPalette acts on: whether palette creation
    will succeed, the id source for fresh handles, the live palette resources
    by handle id (0 is the NULL handle), the palette currently selected into
    the screen device context, the count of realizations performed, and
    whether the context has been released. -/
structure ScreenState where
  createOk : Bool
  nextId : Nat
  pals : Nat → Option LogPalette
  selected : Nat
  realized : Nat
  dcReleased : Bool

/-- CreatePalette at the handle level: on success a fresh nonzero handle bound
    to the materialized descriptor, on failure the NULL handle 0. -/
def gdiCreatePalette (st : ScreenState) (lp : LogPalette) : Nat × ScreenState :=
  if st.createOk then
    let h := st.nextId + 1
    let pals2 : Nat → Option LogPalette := fun k =>
      if k = h then some { lp with palPalEntry := lp.palPalEntry.take lp.palNumEntries }
      else st.pals k
    (h, { st with nextId := h, pals := pals2 })
  else (0, st)

/-- SelectPalette: select a palette into the screen context, returning the
    previously selected one. -/
def gdiSelectPalette (st : ScreenState) (h : Nat) : Nat × ScreenState :=
  (st.selected, { st with selected := h })

/-- RealizePalette: force the selected palette onto the hardware. -/
def gdiRealizePalette (st : ScreenState) : ScreenState :=
  { st with realized := st.realized + 1 }

/-- DeleteObject on a palette handle: destroy the resource. -/
def gdiDeleteObject (st : ScreenState) (h : Nat) : ScreenState :=
  { st with pals := fun k => if k = h then none else st.pals k }

/-- ReleaseDC on the screen device context. -/
def gdiReleaseDC (st : ScreenState) : ScreenState :=
  { st with dcReleased := true }

/-- The descriptor array ClearSystemPalette builds (lines 501-507): every slot
    of the zero-initialized array set to black with the no-collapse flag. -/
def clearPaletteEntries : List PALETTEENTRY :=
  (List.range MAXPALETTE).foldl
    (fun a i => a.set i ⟨0, 0, 0, PC_NOCOLLAPSE⟩)
    (List.replicate MAXPALETTE pe0)

/-- ClearSystemPalette (lines 482-520): build the all-black no-collapse
    256-entry descriptor, and when its materialization yields a non-null
    handle, select it into the screen context, realize it, select the
    previous palette back and destroy the temporary; the context is released
    on both paths. -/
def ClearSystemPalette (st : ScreenState) : ScreenState :=
  let pal : LogPalette :=
    { palVersion := 0x300, palNumEntries := MAXPALETTE, palPalEntry := clearPaletteEntries }
  let r1 := gdiCreatePalette st pal
  if r1.1 ≠ 0 then
    let r2 := gdiSelectPalette r1.2 r1.1
    let st2 := gdiRealizePalette r2.2
    let r3 := gdiSelectPalette st2 r2.1
    let st4 := gdiDeleteObject r3.2 r3.1
    gdiReleaseDC st4
  else gdiReleaseDC r1.2

/-- Read slot i of a PALETTEENTRY array, zero beyond the bounds. -/
def entryAt (a : List PALETTEENTRY) (i : Nat) : PALETTEENTRY :=
  a.getD i pe0

/-- The color triple (red, green, blue) of a palette entry. -/
def colorsOf (e : PALETTEENTRY) : Nat × Nat × Nat :=
  (e.peRed, e.peGreen, e.peBlue)

/-- Membership in a unit-step index range. -/
theorem mem_range'_iff {s n m : Nat} : m ∈ List.range' s n ↔ s ≤ m ∧ m < s + n := by
  rw [List.mem_range']
  constructor
  · rintro ⟨i, hi, rfl⟩; omega
  · intro h; exact ⟨m - s, by omega, by omega⟩

theorem entryAt_set_self {a : List PALETTEENTRY} {i : Nat} {e : PALETTEENTRY}
    (h : i < a.length) : entryAt (a.set i e) i = e := by
  simp [entryAt, List.getD_eq_getElem?_getD, List.getElem?_set_self h]

theorem entryAt_set_ne {a : List PALETTEENTRY} {i k : Nat} {e : PALETTEENTRY}
    (h : i ≠ k) : entryAt (a.set i e) k = entryAt a k := by
  simp [entryAt, List.getD_eq_getElem?_getD, List.getElem?_set_ne h]

theorem length_setEntryFlags (a : List PALETTEENTRY) (i f : Nat) :
    (setEntryFlags a i f).length = a.length := by
  simp [setEntryFlags]

theorem length_setEntryFromTable (tbl : List RGBQUAD) (a : List PALETTEENTRY) (i : Nat) :
    (setEntryFromTable tbl a i).length = a.length := by
  simp [setEntryFromTable]

theorem flagsLoop_cons (i : Nat) (t : List Nat) (f : Nat) (a : List PALETTEENTRY) :
    flagsLoop (i :: t) f a = flagsLoop t f (setEntryFlags a i f) := rfl

theorem tableLoop_cons (tbl : List RGBQUAD) (i : Nat) (t : List Nat) (a : List PALETTEENTRY) :
    tableLoop tbl (i :: t) a = tableLoop tbl t (setEntryFromTable tbl a i) := rfl

theorem length_flagsLoop (idxs : List Nat) (f : Nat) (a : List PALETTEENTRY) :
    (flagsLoop idxs f a).length = a.length := by
  induction idxs generalizing a with
  | nil => rfl
  | cons i t ih => rw [flagsLoop_cons, ih, length_setEntryFlags]

theorem length_tableLoop (tbl : List RGBQUAD) (idxs : List Nat) (a : List PALETTEENTRY) :
    (tableLoop tbl idxs a).length = a.length := by
  induction idxs generalizing a with
  | nil => rfl
  | cons i t ih => rw [tableLoop_cons, ih, length_setEntryFromTable]

theorem entryAt_setEntryFlags_ne {a : List PALETTEENTRY} {i k f : Nat} (h : i ≠ k) :
    entryAt (setEntryFlags a i f) k = entryAt a k :=
  entryAt_set_ne h

theorem entryAt_setEntryFromTable_ne {tbl : List RGBQUAD} {a : List PALETTEENTRY} {i k : Nat}
    (h : i ≠ k) : entryAt (setEntryFromTable tbl a i) k = entryAt a k :=
  entryAt_set_ne h

theorem colorsOf_setEntryFlags (a : List PALETTEENTRY) (i f k : Nat) :
    colorsOf (entryAt (setEntryFlags a i f) k) = colorsOf (entryAt a k) := by
  by_cases hk : i = k
  · subst hk
    by_cases hl : i < a.length
    · rw [setEntryFlags, entryAt_set_self hl]
      simp [colorsOf, entryAt]
    · rw [setEntryFlags, List.set_eq_of_length_le (by omega)]
  · rw [entryAt_setEntryFlags_ne hk]

theorem entryAt_flagsLoop_notMem {idxs : List Nat} {f k : Nat} {a : List PALETTEENTRY}
    (h : k ∉ idxs) : entryAt (flagsLoop idxs f a) k = entryAt a k := by
  induction idxs generalizing a with
  | nil => rfl
  | cons i t ih =>
    simp only [List.mem_cons, not_or] at h
    rw [flagsLoop_cons, ih h.2, entryAt_setEntryFlags_ne (fun he => h.1 he.symm)]

theorem entryAt_tableLoop_notMem {tbl : List RGBQUAD} {idxs : List Nat} {k : Nat}
    {a : List PALETTEENTRY} (h : k ∉ idxs) : entryAt (tableLoop tbl idxs a) k = entryAt a k := by
  induction idxs generalizing a with
  | nil => rfl
  | cons i t ih =>
    simp only [List.mem_cons, not_or] at h
    rw [tableLoop_cons, ih h.2, entryAt_setEntryFromTable_ne (fun he => h.1 he.symm)]

theorem colorsOf_flagsLoop (idxs : List Nat) (f k : Nat) (a : List PALETTEENTRY) :
    colorsOf (entryAt (flagsLoop idxs f a) k) = colorsOf (entryAt a k) := by
  induction idxs generalizing a with
  | nil => rfl
  | cons i t ih => rw [flagsLoop_cons, ih, colorsOf_setEntryFlags]

theorem peFlags_flagsLoop_mem {idxs : List Nat} {f k : Nat} {a : List PALETTEENTRY}
    (h : k ∈ idxs) (hk : k < a.length) : (entryAt (flagsLoop idxs f a) k).peFlags = f := by
  induction idxs generalizing a with
  | nil => exact absurd h (List.not_mem_nil k)
  | cons i t ih =>
    by_cases hm : k ∈ t
    · rw [flagsLoop_cons]
      exact ih hm (by rw [length_setEntryFlags]; exact hk)
    · have hki : k = i := by
        rcases List.mem_cons.mp h with h1 | h2
        · exact h1
        · exact absurd h2 hm
      subst hki
      rw [flagsLoop_cons, entryAt_flagsLoop_notMem hm, setEntryFlags, entryAt_set_self hk]

theorem entryAt_range_map (g : Nat → PALETTEENTRY) {n i : Nat} (h : i < n) :
    entryAt ((List.range n).map g) i = g i := by
  simp [entryAt, List.getD_eq_getElem?_getD, List.getElem?_map, List.getElem?_range h]

theorem identNoStatic_length (tbl : List RGBQUAD) (n : Nat) :
    (identNoStatic tbl n).length = MAXPALETTE := by
  simp [identNoStatic, length_flagsLoop, length_tableLoop]

theorem identStatic_length (tbl : List RGBQUAD) (n ns : Nat) (sp : Nat → PALETTEENTRY) :
    (identStatic tbl n ns sp).length = MAXPALETTE := by
  simp [identStatic, length_flagsLoop, length_tableLoop]

/-- Claim C8: the per-entry three-step in-place transformation of
    CreateRGBQUADFromPalette (reserved := red; red := blue; blue := reserved;
    reserved := 0) is extensionally equal, on every input entry value, to the
    direct transformation that swaps the red and blue fields and sets the
    reserved byte to 0. -/
theorem rgbSwapLoopBody_eq_direct (q : RGBQUAD) : rgbSwapLoopBody q = rgbSwapDirect q := by
  cases q
  rfl

/-- Claim C9: PalEntriesOnDevice returns the palette size the device reports,
    falling back to the device system-color count exactly when that size is 0;
    it is total, always returning a count (possibly 0). -/
theorem palEntriesOnDevice_fallback (d : DisplayDev) :
    PalEntriesOnDevice d = if d.sizePalette = 0 then d.numColors else d.sizePalette := by
  simp [PalEntriesOnDevice, GetDeviceCaps, RASTERCAPS, SIZEPALETTE, NUMCOLORS]

/-- Claim C4: the descriptor CreateSpectrumPalette materializes has exactly
    256 entries, all with flags 0; it is generated by the nested wrapping
    counter spectrumStep (red by 32 wrapping at 256, green by 32 on each red
    wrap, blue by 64 on each green wrap); entry 0 is (0,0,0), entry 8 has
    red 0 and green 32, and the red field only takes values in the set
    of multiples of 32 below 256. -/
theorem createSpectrumPalette_shape :
    CreateSpectrumPalette true = some spectrumPalette ∧
    spectrumPalette.palPalEntry = spectrumLoop MAXPALETTE (0, 0, 0) ∧
    spectrumPalette.palPalEntry.length = 256 ∧
    (∀ e ∈ spectrumPalette.palPalEntry, e.peFlags = 0 ∧ e.peRed % 32 = 0 ∧ e.peRed ≤ 224) ∧
    entryAt spectrumPalette.palPalEntry 0 = ⟨0, 0, 0, 0⟩ ∧
    (entryAt spectrumPalette.palPalEntry 8).peRed = 0 ∧
    (entryAt spectrumPalette.palPalEntry 8).peGreen = 32 := by
  decide

/-- Claim C5: GetSystemPalette returns a null handle when no device context
    can be acquired, when the raster capabilities of the device lack the
    palette bit (the context being released on that path), and when the
    transient descriptor allocation fails; on the allocation-failure path the
    device context is not released before returning. -/
theorem getSystemPalette_failure_paths (env : SysEnv) (d : DisplayDev) :
    (env.dev = none → GetSystemPalette env = { hPal := none, dcReleased := false }) ∧
    (env.dev = some d → GetDeviceCaps d RASTERCAPS &&& RC_PALETTE = 0 →
      GetSystemPalette env = { hPal := none, dcReleased := true }) ∧
    (env.dev = some d → GetDeviceCaps d RASTERCAPS &&& RC_PALETTE ≠ 0 → env.allocOk = false →
      GetSystemPalette env = { hPal := none, dcReleased := false }) := by
  refine ⟨?_, ?_, ?_⟩
  · intro h
    simp [GetSystemPalette, h]
  · intro h hbit
    simp [GetSystemPalette, h, hbit]
  · intro h hbit halloc
    simp [GetSystemPalette, h, hbit, halloc]

theorem getSystemPalette_failure_paths_witness :
    GetSystemPalette ⟨none, true⟩ = { hPal := none, dcReleased := false } ∧
    GetSystemPalette ⟨some ⟨0, 16, 20, false, fun _ => pe0⟩, true⟩ =
      { hPal := none, dcReleased := true } ∧
    GetSystemPalette ⟨some ⟨256, 16, 20, false, fun _ => pe0⟩, false⟩ =
      { hPal := none, dcReleased := false } :=
  ⟨(getSystemPalette_failure_paths ⟨none, true⟩ ⟨0, 16, 20, false, fun _ => pe0⟩).1 rfl,
   (getSystemPalette_failure_paths ⟨some ⟨0, 16, 20, false, fun _ => pe0⟩, true⟩
      ⟨0, 16, 20, false, fun _ => pe0⟩).2.1 rfl (by decide),
   (getSystemPalette_failure_paths ⟨some ⟨256, 16, 20, false, fun _ => pe0⟩, false⟩
      ⟨256, 16, 20, false, fun _ => pe0⟩).2.2 rfl (by decide) rfl⟩

/-- Claim C7: whenever the construction of the all-black no-collapse 256-entry
    palette succeeds, ClearSystemPalette re-selects the previously selected
    palette into the screen context (select, realize, restore), and the
    temporary palette is destroyed; the device context is released whether or
    not the construction succeeded. -/
theorem clearSystemPalette_restore_release (st : ScreenState) :
    (ClearSystemPalette st).dcReleased = true ∧
    (st.createOk = true →
      (ClearSystemPalette st).selected = st.selected ∧
      (ClearSystemPalette st).realized = st.realized + 1 ∧
      (ClearSystemPalette st).pals (st.nextId + 1) = none) := by
  cases h : st.createOk
  · simp [ClearSystemPalette, gdiCreatePalette, gdiReleaseDC, h]
  · simp [ClearSystemPalette, gdiCreatePalette, gdiSelectPalette, gdiRealizePalette,
      gdiDeleteObject, gdiReleaseDC, h]

theorem clearSystemPalette_restore_release_witness :
    (ClearSystemPalette ⟨true, 5, fun _ => none, 3, 0, false⟩).dcReleased = true ∧
    (ClearSystemPalette ⟨true, 5, fun _ => none, 3, 0, false⟩).selected = 3 ∧
    (ClearSystemPalette ⟨true, 5, fun _ => none, 3, 0, false⟩).realized = 1 ∧
    (ClearSystemPalette ⟨true, 5, fun _ => none, 3, 0, false⟩).pals 6 = none := by
  have h := clearSystemPalette_restore_release ⟨true, 5, fun _ => none, 3, 0, false⟩
  exact ⟨h.1, (h.2 rfl).1, (h.2 rfl).2.1, (h.2 rfl).2.2⟩

theorem getDeviceCaps_numColors (d : DisplayDev) : GetDeviceCaps d NUMCOLORS = d.numColors := by
  simp [GetDeviceCaps, NUMCOLORS, RASTERCAPS, SIZEPALETTE]

theorem createIdentityPalette_palPalEntry (dev : DisplayDev) (tbl : List RGBQUAD) (n : Nat)
    (p : LogPalette) (hp : CreateIdentityPalette dev tbl n = some p) :
    p.palPalEntry =
      if dev.sysPalUseNoStatic then identNoStatic tbl n
      else identStatic tbl n dev.numColors dev.sysPal := by
  simp only [CreateIdentityPalette, CreatePalette, Option.some.injEq,
    getDeviceCaps_numColors] at hp
  subst hp
  by_cases h : dev.sysPalUseNoStatic
  · rw [if_pos h]
    show (identNoStatic tbl n).take MAXPALETTE = identNoStatic tbl n
    exact List.take_of_length_le (le_of_eq (identNoStatic_length tbl n))
  · rw [if_neg h]
    show (identStatic tbl n dev.numColors dev.sysPal).take MAXPALETTE =
      identStatic tbl n dev.numColors dev.sysPal
    exact List.take_of_length_le (le_of_eq (identStatic_length tbl n dev.numColors dev.sysPal))

/-- Claim C2: under the exclusive-use (SYSPAL_NOSTATIC) policy, whatever the
    input table and count, the 256-entry descriptor CreateIdentityPalette
    constructs has entry 0 exactly (0,0,0) with flags 0 and entry 255 exactly
    (255,255,255) with flags 0, overwriting whatever the fill loops placed in
    those two slots. -/
theorem createIdentityPalette_nostatic_endpoints
    (dev : DisplayDev) (tbl : List RGBQUAD) (n : Nat) (p : LogPalette)
    (hpol : dev.sysPalUseNoStatic = true) (hn : n ≤ MAXPALETTE) (hlen : n ≤ tbl.length)
    (hp : CreateIdentityPalette dev tbl n = some p) :
    p.palPalEntry.length = MAXPALETTE ∧
    entryAt p.palPalEntry 0 = ⟨0, 0, 0, 0⟩ ∧
    entryAt p.palPalEntry 255 = ⟨255, 255, 255, 0⟩ := by
  rw [createIdentityPalette_palPalEntry dev tbl n p hp, if_pos (by simp [hpol])]
  refine ⟨identNoStatic_length tbl n, ?_, ?_⟩
  · simp only [identNoStatic]
    apply entryAt_set_self
    simp [length_flagsLoop, length_tableLoop, MAXPALETTE]
  · simp only [identNoStatic]
    rw [entryAt_set_ne (by omega : (0 : Nat) ≠ 255)]
    apply entryAt_set_self
    simp [length_flagsLoop, length_tableLoop, MAXPALETTE]

theorem createIdentityPalette_nostatic_endpoints_witness :
    ((identNoStatic ([] : List RGBQUAD) 0).take MAXPALETTE).length = MAXPALETTE ∧
    entryAt ((identNoStatic ([] : List RGBQUAD) 0).take MAXPALETTE) 0 = ⟨0, 0, 0, 0⟩ ∧
    entryAt ((identNoStatic ([] : List RGBQUAD) 0).take MAXPALETTE) 255 = ⟨255, 255, 255, 0⟩ :=
  createIdentityPalette_nostatic_endpoints ⟨0, 0, 20, true, fun _ => pe0⟩ [] 0
    ⟨0x300, MAXPALETTE, (identNoStatic [] 0).take MAXPALETTE⟩ rfl (by decide) (by decide) rfl

/-- Claim C6: for every well-formed source palette and flag byte F,
    CopyPaletteEx returns a new palette with the same entry count whose
    entries all carry flags F with the (red, green, blue) values of the
    source; it returns null when the input handle is null (where the
    entry-count query fails) and when the underlying copy fails. -/
theorem copyPaletteEx_flag_override (pal : LogPalette) (F : Nat) (a : Bool)
    (hwf : pal.palNumEntries = pal.palPalEntry.length) :
    CopyPaletteEx (some pal) F true =
      some { palVersion := PALVERSION, palNumEntries := pal.palNumEntries,
             palPalEntry := pal.palPalEntry.map fun e => { e with peFlags := F } } ∧
    CopyPaletteEx none F a = none ∧
    CopyPaletteEx (some pal) F false = none := by
  refine ⟨?_, rfl, ?_⟩
  · have h1 : GetPaletteEntriesList pal 0 pal.palNumEntries = pal.palPalEntry := by
      simp [GetPaletteEntriesList, hwf]
    have h2 : CopyPalette pal true =
        some ⟨PALVERSION, pal.palPalEntry.length, pal.palPalEntry⟩ := by
      simp [CopyPalette, CreatePalette, h1]
    simp [CopyPaletteEx, h2, GetPaletteEntriesList, SetPaletteEntriesList, hwf,
      List.take_of_length_le]
  · simp [CopyPaletteEx, CopyPalette]

theorem copyPaletteEx_flag_override_witness :
    CopyPaletteEx (some ⟨768, 2, [⟨1, 2, 3, 5⟩, ⟨4, 5, 6, 7⟩]⟩) 9 true =
      some ⟨768, 2, [⟨1, 2, 3, 9⟩, ⟨4, 5, 6, 9⟩]⟩ ∧
    CopyPaletteEx none 9 true = none ∧
    CopyPaletteEx (some ⟨768, 2, [⟨1, 2, 3, 5⟩, ⟨4, 5, 6, 7⟩]⟩) 9 false = none :=
  copyPaletteEx_flag_override ⟨768, 2, [⟨1, 2, 3, 5⟩, ⟨4, 5, 6, 7⟩]⟩ 9 true rfl

/-- Claim C1: for every count 1..256 and device-ordered color table of that
    length, building a palette with CreatePaletteFromRGBQUAD and reading it
    back with CreateRGBQUADFromPalette returns the same count and, per index,
    the same (red, green, blue) triple, with the output reserved byte 0
    regardless of the input reserved bytes. -/
theorem createPaletteFromRGBQUAD_roundtrip (count : Nat) (tbl : List RGBQUAD) (p : LogPalette)
    (h1 : 1 ≤ count) (h2 : count ≤ MAXPALETTE) (hlen : tbl.length = count)
    (hp : CreatePaletteFromRGBQUAD tbl count true = some p) :
    (CreateRGBQUADFromPalette p).2 = count ∧
    (CreateRGBQUADFromPalette p).1 = tbl.map fun q => { q with rgbReserved := 0 } := by
  subst hlen
  simp only [CreatePaletteFromRGBQUAD, CreatePalette, Option.some.injEq] at hp
  rw [if_neg (by simp)] at hp
  simp only [Option.some.injEq] at hp
  subst hp
  constructor
  · rfl
  · show (((((List.range tbl.length).map fun i =>
        let q := tbl.getD i rgbq0
        ({ peRed := q.rgbRed, peGreen := q.rgbGreen, peBlue := q.rgbBlue,
           peFlags := 0 } : PALETTEENTRY)).take tbl.length).take tbl.length).map
             rgbquadOfEntryBytes).map rgbSwapLoopBody =
        tbl.map fun q => { q with rgbReserved := 0 }
    rw [List.take_take, Nat.min_self]
    rw [List.take_of_length_le (by simp)]
    apply List.ext_getElem
    · simp
    · intro i hi1 hi2
      have hi : i < tbl.length := by simpa using hi2
      simp only [List.getElem_map, List.getElem_range]
      have hd : tbl.getD i rgbq0 = tbl[i] := by
        rw [List.getD_eq_getElem?_getD, List.getElem?_eq_getElem hi]
        rfl
      rw [hd]
      cases h : tbl[i]
      simp [rgbSwapLoopBody, rgbquadOfEntryBytes]

theorem createPaletteFromRGBQUAD_roundtrip_witness :
    (CreateRGBQUADFromPalette ⟨PALVERSION, 2, [⟨3, 2, 1, 0⟩, ⟨6, 5, 4, 0⟩]⟩).2 = 2 ∧
    (CreateRGBQUADFromPalette ⟨PALVERSION, 2, [⟨3, 2, 1, 0⟩, ⟨6, 5, 4, 0⟩]⟩).1 =
      ([⟨1, 2, 3, 9⟩, ⟨4, 5, 6, 7⟩] : List RGBQUAD).map fun q => { q with rgbReserved := 0 } :=
  createPaletteFromRGBQUAD_roundtrip 2 [⟨1, 2, 3, 9⟩, ⟨4, 5, 6, 7⟩]
    ⟨PALVERSION, 2, [⟨3, 2, 1, 0⟩, ⟨6, 5, 4, 0⟩]⟩ (by decide) (by decide) rfl (by decide)

theorem tableLoop_nil (tbl : List RGBQUAD) (a : List PALETTEENTRY) :
    tableLoop tbl [] a = a := rfl

/-- Claim C3 counterexample: under the shared-use policy with 20 static
    colors and count 30, the middle slot at index count - N/2 = 20 of the
    constructed descriptor keeps the system-palette snapshot color (7,8,9)
    with the no-collapse flag; it is not zero-filled. -/
theorem createIdentityPalette_static_middle_not_zero :
    (CreateIdentityPalette ⟨0, 0, 20, false, fun _ => ⟨7, 8, 9, 1⟩⟩
        (List.replicate 30 ⟨1, 2, 3, 0⟩) 30).map (fun p => entryAt p.palPalEntry 20) =
      some ⟨7, 8, 9, PC_NOCOLLAPSE⟩ ∧
    colorsOf ⟨7, 8, 9, PC_NOCOLLAPSE⟩ ≠ (0, 0, 0) := by
  decide

/-- Claim C3 as amended: under the shared-use policy with N device static
    colors, every remaining middle slot from index N/2 + (count - N/2 - N/2)
    up to (but excluding) 256 - N/2 of the descriptor CreateIdentityPalette
    constructs receives the no-collapse flag while keeping the color of the
    system-palette snapshot at that index (the slots are not zero-filled). -/
theorem createIdentityPalette_static_middle_slots
    (dev : DisplayDev) (tbl : List RGBQUAD) (n i : Nat) (p : LogPalette)
    (hpol : dev.sysPalUseNoStatic = false)
    (h1 : dev.numColors / 2 + (n - dev.numColors / 2 - dev.numColors / 2) ≤ i)
    (h2 : i < MAXPALETTE - dev.numColors / 2)
    (hp : CreateIdentityPalette dev tbl n = some p) :
    (entryAt p.palPalEntry i).peFlags = PC_NOCOLLAPSE ∧
    colorsOf (entryAt p.palPalEntry i) = colorsOf (dev.sysPal i) := by
  rw [createIdentityPalette_palPalEntry dev tbl n p hp, if_neg (by simp [hpol])]
  simp only [identStatic]
  simp only [MAXPALETTE] at h2 ⊢
  rw [entryAt_flagsLoop_notMem (by rw [mem_range'_iff]; omega)]
  constructor
  · apply peFlags_flagsLoop_mem
    · rw [mem_range'_iff]
      omega
    · rw [length_tableLoop, length_flagsLoop]
      simp only [List.length_map, List.length_range]
      omega
  · rw [colorsOf_flagsLoop]
    rw [entryAt_tableLoop_notMem (by rw [mem_range'_iff]; omega)]
    rw [entryAt_flagsLoop_notMem (by rw [List.mem_range]; omega)]
    rw [entryAt_range_map dev.sysPal (by omega)]

theorem createIdentityPalette_static_middle_slots_witness :
    (entryAt ((CreateIdentityPalette ⟨0, 0, 20, false, fun _ => ⟨7, 8, 9, 1⟩⟩
        (List.replicate 30 ⟨1, 2, 3, 0⟩) 30).getD ⟨0, 0, []⟩).palPalEntry 20).peFlags =
      PC_NOCOLLAPSE ∧
    colorsOf (entryAt ((CreateIdentityPalette ⟨0, 0, 20, false, fun _ => ⟨7, 8, 9, 1⟩⟩
        (List.replicate 30 ⟨1, 2, 3, 0⟩) 30).getD ⟨0, 0, []⟩).palPalEntry 20) =
      colorsOf (⟨7, 8, 9, 1⟩ : PALETTEENTRY) :=
  createIdentityPalette_static_middle_slots ⟨0, 0, 20, false, fun _ => ⟨7, 8, 9, 1⟩⟩
    (List.replicate 30 ⟨1, 2, 3, 0⟩) 30 20
    ((CreateIdentityPalette ⟨0, 0, 20, false, fun _ => ⟨7, 8, 9, 1⟩⟩
        (List.replicate 30 ⟨1, 2, 3, 0⟩) 30).getD ⟨0, 0, []⟩)
    rfl (by decide) (by decide) rfl

/-- Claim C10 counterexample: under the shared-use policy with N = 1 device
    static colors and count 1 (count at most N), the table-copy loop runs:
    slot 0 of the constructed descriptor carries the caller table color
    (9,0,0) with the no-collapse flag, which differs from the system-palette
    snapshot color at that index. -/
theorem createIdentityPalette_static_table_copied :
    (CreateIdentityPalette ⟨0, 0, 1, false, fun _ => pe0⟩ [⟨0, 0, 9, 0⟩] 1).map
        (fun p => entryAt p.palPalEntry 0) = some ⟨9, 0, 0, PC_NOCOLLAPSE⟩ ∧
    (1 : Nat) ≤ 1 ∧
    colorsOf ⟨9, 0, 0, PC_NOCOLLAPSE⟩ ≠ colorsOf pe0 := by
  decide

/-- Claim C10 as amended: under the shared-use policy with N device static
    colors, whenever count - N/2 is at most N/2 (so in integer arithmetic the
    copy loop bound count - N/2 does not exceed its start index N/2; for even
    N this is exactly count at most N), the loop copying caller entries runs
    zero times: every slot color of the descriptor CreateIdentityPalette
    constructs equals the system-palette snapshot color at that index, only
    flag bytes being modified. -/
theorem createIdentityPalette_static_snapshot_colors
    (dev : DisplayDev) (tbl : List RGBQUAD) (n i : Nat) (p : LogPalette)
    (hpol : dev.sysPalUseNoStatic = false)
    (hcnt : n - dev.numColors / 2 ≤ dev.numColors / 2)
    (hi : i < MAXPALETTE)
    (hp : CreateIdentityPalette dev tbl n = some p) :
    colorsOf (entryAt p.palPalEntry i) = colorsOf (dev.sysPal i) := by
  rw [createIdentityPalette_palPalEntry dev tbl n p hp, if_neg (by simp [hpol])]
  have hm : n - dev.numColors / 2 - dev.numColors / 2 = 0 := by omega
  simp only [identStatic, hm, List.range'_zero]
  simp only [MAXPALETTE] at hi ⊢
  rw [tableLoop_nil]
  rw [colorsOf_flagsLoop, colorsOf_flagsLoop, colorsOf_flagsLoop]
  rw [entryAt_range_map dev.sysPal hi]

theorem createIdentityPalette_static_snapshot_colors_witness :
    colorsOf (entryAt ((CreateIdentityPalette ⟨0, 0, 20, false, fun _ => ⟨7, 8, 9, 1⟩⟩
        (List.replicate 15 ⟨1, 2, 3, 0⟩) 15).getD ⟨0, 0, []⟩).palPalEntry 7) =
      colorsOf (⟨7, 8, 9, 1⟩ : PALETTEENTRY) :=
  createIdentityPalette_static_snapshot_colors ⟨0, 0, 20, false, fun _ => ⟨7, 8, 9, 1⟩⟩
    (List.replicate 15 ⟨1, 2, 3, 0⟩) 15 7
    ((CreateIdentityPalette ⟨0, 0, 20, false, fun _ => ⟨7, 8, 9, 1⟩⟩
        (List.replicate 15 ⟨1, 2, 3, 0⟩) 15).getD ⟨0, 0, []⟩)
    rfl (by decide) (by decide) rfl
